import Mathlib

/-!
Verification of the sequence engine of the arithmetic/geometric sequence
explorer applet.

The repository contains two near-identical Streamlit applets:

* `src/app.py` (arithmetic only): `generate_arithmetic_sequence`,
  `calculate_sum_formula`, and a `main` that validates the term count.
* `src/unnamed/part_000` (arithmetic and geometric):
  `generate_arithmetic_sequence`, `calculate_arithmetic_sum`,
  `generate_geometric_sequence`, `calculate_geometric_sum`, and a `main`
  that validates the term count and dispatches on the sequence type.

The numeric functions are shallowly embedded below over an arbitrary
`Field` (Python's exact arithmetic over floats is idealised as exact field
arithmetic; the spec speaks of real parameters, and every theorem below
instantiates at the real numbers, while witnesses evaluate at the
rationals).  A Python `for n in range(1, num_terms + 1)` loop that appends
`f n` to a list is embedded as a map of `f` over `List.range' 1 num_terms`,
which is the list `[1, 2, ..., num_terms]` in increasing order, exactly the
order in which the loop appends.  Integer arithmetic performed on the loop
index before mixing with floats is kept on `ℕ` (`n - 1` with `1 ≤ n`), and
Python int subtraction that may go negative (`num_terms - 1` inside the sum
formula, mixed into float arithmetic) is embedded as subtraction after the
cast into the field.
-/

namespace SeqApplet

/-- Sequence kind selected by the radio button in the combined applet
(`part_000`, `main`): the string `Arithmetic` or `Geometric`. -/
inductive SequenceKind : Type
  | arithmetic
  | geometric
  deriving DecidableEq

namespace App

/-- Embedding of `generate_arithmetic_sequence` from `src/app.py`
(lines 5-11): for `n` from 1 to `num_terms` inclusive append
`first_term + (n - 1) * common_difference`. -/
def generate_arithmetic_sequence {α : Type} [Field α]
    (first_term common_difference : α) (num_terms : ℕ) : List α :=
  (List.range' 1 num_terms).map
    (fun n => first_term + ((n - 1 : ℕ) : α) * common_difference)

/-- Embedding of `calculate_sum_formula` from `src/app.py` (lines 13-15):
`(num_terms / 2) * (2 * first_term + (num_terms - 1) * common_difference)`,
with Python's true division of the integer `num_terms` by 2. -/
def calculate_sum_formula {α : Type} [Field α]
    (first_term common_difference : α) (num_terms : ℕ) : α :=
  ((num_terms : α) / 2) * (2 * first_term + ((num_terms : α) - 1) * common_difference)

end App

namespace Combined

/-- Embedding of `generate_arithmetic_sequence` from `src/unnamed/part_000`
(lines 6-12); the body is identical to the one in `src/app.py`. -/
def generate_arithmetic_sequence {α : Type} [Field α]
    (first_term common_difference : α) (num_terms : ℕ) : List α :=
  (List.range' 1 num_terms).map
    (fun n => first_term + ((n - 1 : ℕ) : α) * common_difference)

/-- Embedding of `calculate_arithmetic_sum` from `src/unnamed/part_000`
(lines 14-16); the body is identical to `calculate_sum_formula` in
`src/app.py`. -/
def calculate_arithmetic_sum {α : Type} [Field α]
    (first_term common_difference : α) (num_terms : ℕ) : α :=
  ((num_terms : α) / 2) * (2 * first_term + ((num_terms : α) - 1) * common_difference)

/-- Embedding of `generate_geometric_sequence` from `src/unnamed/part_000`
(lines 18-24): for `n` from 1 to `num_terms` inclusive append
`first_term * common_ratio ** (n - 1)`.  The exponent `n - 1` is a Python
int with `n ≥ 1`, so it is embedded as a natural-number exponent. -/
def generate_geometric_sequence {α : Type} [Field α]
    (first_term common_ratio : α) (num_terms : ℕ) : List α :=
  (List.range' 1 num_terms).map
    (fun n => first_term * common_ratio ^ (n - 1))

/-- Embedding of `calculate_geometric_sum` from `src/unnamed/part_000`
(lines 26-31): `if common_ratio == 1` (exact equality) return
`num_terms * first_term`, else return
`first_term * (1 - common_ratio ** num_terms) / (1 - common_ratio)`. -/
def calculate_geometric_sum {α : Type} [Field α] [DecidableEq α]
    (first_term common_ratio : α) (num_terms : ℕ) : α :=
  if common_ratio = 1 then (num_terms : α) * first_term
  else first_term * (1 - common_ratio ^ num_terms) / (1 - common_ratio)

/-- The only error kind raised by the applet's input validation:
`st.error("Number of terms must be a positive integer!")` in `main`. -/
inductive SeqError : Type
  | invalidTermCount
  deriving DecidableEq

/-- Embedding of the computational portion of `main` in
`src/unnamed/part_000` (lines 83-93): first the validation
`if num_terms <= 0: st.error(...); return` (no sequence and no sum are
computed on this path), then the dispatch on the sequence type, producing
the pair `(sequence, sum_value)` handed to the rendering code. -/
def compute_request {α : Type} [Field α] [DecidableEq α] (kind : SequenceKind)
    (first_term step : α) (num_terms : ℕ) : Except SeqError (List α × α) :=
  if num_terms ≤ 0 then Except.error SeqError.invalidTermCount
  else
    match kind with
    | SequenceKind.arithmetic =>
        Except.ok (generate_arithmetic_sequence first_term step num_terms,
          calculate_arithmetic_sum first_term step num_terms)
    | SequenceKind.geometric =>
        Except.ok (generate_geometric_sequence first_term step num_terms,
          calculate_geometric_sum first_term step num_terms)

/-- The spec's `generateTerms` operation: the kind dispatch of `main`
(`part_000` lines 88-93) restricted to the generated term list. -/
def generateTerms {α : Type} [Field α] (kind : SequenceKind)
    (first_term step : α) (num_terms : ℕ) : List α :=
  match kind with
  | SequenceKind.arithmetic => generate_arithmetic_sequence first_term step num_terms
  | SequenceKind.geometric => generate_geometric_sequence first_term step num_terms

/-- The spec's `computeSum` operation: the kind dispatch of `main`
(`part_000` lines 88-93) restricted to the closed-form sum. -/
def computeSum {α : Type} [Field α] [DecidableEq α] (kind : SequenceKind)
    (first_term step : α) (num_terms : ℕ) : α :=
  match kind with
  | SequenceKind.arithmetic => calculate_arithmetic_sum first_term step num_terms
  | SequenceKind.geometric => calculate_geometric_sum first_term step num_terms

/-- One engine invocation as a state transition.  The engine functions in
the source read only their parameters and local variables and write no
global (the applet's only cross-call data are Streamlit UI widgets, owned
by the presentation layer), so the engine state is the unit type: a call
consumes the state unchanged and returns the `(terms, sum)` pair. -/
def engine_step {α : Type} [Field α] [DecidableEq α] (s : Unit)
    (kind : SequenceKind) (first_term step : α) (num_terms : ℕ) :
    Unit × (List α × α) :=
  (s, (generateTerms kind first_term step num_terms,
    computeSum kind first_term step num_terms))

end Combined

/-- The arithmetic generator produces exactly the list of values
`first_term + i * common_difference` for the 0-indexed positions
`i = 0, ..., num_terms - 1`, in increasing position order. -/
theorem generate_arithmetic_eq_map {α : Type} [Field α] (a d : α) (tc : ℕ) :
    Combined.generate_arithmetic_sequence a d tc
      = (List.range tc).map (fun i : ℕ => a + (i : α) * d) := by
  unfold Combined.generate_arithmetic_sequence
  rw [List.range'_eq_map_range, List.map_map]
  refine List.map_congr_left ?_
  intro i _
  simp [Nat.add_sub_cancel_left]

/-- The geometric generator produces exactly the list of values
`first_term * common_ratio ^ i` for the 0-indexed positions
`i = 0, ..., num_terms - 1`, in increasing position order. -/
theorem generate_geometric_eq_map {α : Type} [Field α] (a r : α) (tc : ℕ) :
    Combined.generate_geometric_sequence a r tc
      = (List.range tc).map (fun i : ℕ => a * r ^ i) := by
  unfold Combined.generate_geometric_sequence
  rw [List.range'_eq_map_range, List.map_map]
  refine List.map_congr_left ?_
  intro i _
  simp [Nat.add_sub_cancel_left]

/-- Gauss-sum helper: the fold of the arithmetic term list agrees with the
closed-form arithmetic series formula, in every field of characteristic
zero. -/
theorem sum_generate_arithmetic {α : Type} [Field α] [CharZero α]
    (a d : α) (tc : ℕ) :
    (Combined.generate_arithmetic_sequence a d tc).sum
      = ((tc : α) / 2) * (2 * a + ((tc : α) - 1) * d) := by
  rw [generate_arithmetic_eq_map]
  induction tc with
  | zero => simp
  | succ k ih =>
    rw [List.range_succ, List.map_append, List.sum_append, ih]
    have h2 : (2 : α) ≠ 0 := two_ne_zero
    push_cast
    field_simp
    ring



/-- Claim C1: for every positive termCount and all field parameters, the
arithmetic generator returns exactly termCount elements, the element at
0-indexed position i is firstTerm + i * step, and the elements appear in
increasing position order (the list equals the map of the term formula over
the increasing index list `List.range termCount`). -/
theorem arithmetic_generateTerms_correct (α : Type) [Field α] (a d : α)
    (tc : ℕ) (h : 0 < tc) :
    (Combined.generate_arithmetic_sequence a d tc).length = tc ∧
    Combined.generate_arithmetic_sequence a d tc
      = (List.range tc).map (fun i : ℕ => a + (i : α) * d) ∧
    ∀ i, i < tc →
      (Combined.generate_arithmetic_sequence a d tc)[i]?
        = some (a + (i : α) * d) := by
  refine ⟨?_, generate_arithmetic_eq_map a d tc, ?_⟩
  · rw [generate_arithmetic_eq_map]
    simp
  · intro i hi
    rw [generate_arithmetic_eq_map]
    simp [List.getElem?_range, hi]

/-- Concrete instance of claim C1: firstTerm 1, step 2, three terms. -/
theorem arithmetic_generateTerms_correct_witness :
    (Combined.generate_arithmetic_sequence (1 : ℚ) 2 3).length = 3 ∧
    Combined.generate_arithmetic_sequence (1 : ℚ) 2 3
      = (List.range 3).map (fun i : ℕ => (1 : ℚ) + (i : ℚ) * 2) ∧
    ∀ i : ℕ, i < 3 →
      (Combined.generate_arithmetic_sequence (1 : ℚ) 2 3)[i]?
        = some ((1 : ℚ) + (i : ℚ) * 2) :=
  arithmetic_generateTerms_correct ℚ 1 2 3 (by decide)

/-- Claim C2: for positive termCount and step distinct from 1, the geometric
sum is firstTerm * (1 - step ^ termCount) / (1 - step); moreover the branch
between the two formulas is selected by exact propositional equality of the
step with 1 (no epsilon tolerance: the hypothesis excludes only the single
point step = 1). -/
theorem geometric_computeSum_ne_one (α : Type) [Field α] [DecidableEq α]
    (a r : α) (tc : ℕ) (hpos : 0 < tc) (hr : r ≠ 1) :
    Combined.calculate_geometric_sum a r tc = a * (1 - r ^ tc) / (1 - r) ∧
    Combined.calculate_geometric_sum a r tc
      = if r = 1 then (tc : α) * a else a * (1 - r ^ tc) / (1 - r) := by
  constructor
  · unfold Combined.calculate_geometric_sum
    rw [if_neg hr]
  · rfl

/-- Concrete instance of claim C2: firstTerm 2, step 3, two terms. -/
theorem geometric_computeSum_ne_one_witness :
    Combined.calculate_geometric_sum (2 : ℚ) 3 2 = 2 * (1 - 3 ^ 2) / (1 - 3) ∧
    Combined.calculate_geometric_sum (2 : ℚ) 3 2
      = if (3 : ℚ) = 1 then ((2 : ℕ) : ℚ) * 2 else 2 * (1 - 3 ^ 2) / (1 - 3) :=
  geometric_computeSum_ne_one ℚ 2 3 2 (by decide) (by decide)

/-- Claim C3: invoking the applet's computation with termCount 0, for either
sequence kind, yields the InvalidTermCount failure and never a result pair:
no sequence of terms is produced. -/
theorem termCount_zero_invalid (α : Type) [Field α] [DecidableEq α]
    (kind : SequenceKind) (a d : α) :
    Combined.compute_request kind a d 0
        = Except.error Combined.SeqError.invalidTermCount ∧
    ∀ res : List α × α, Combined.compute_request kind a d 0 ≠ Except.ok res := by
  refine ⟨rfl, ?_⟩
  intro res hres
  exact Except.noConfusion hres

/-- Concrete instance of claim C3: arithmetic kind, firstTerm 1, step 2. -/
theorem termCount_zero_invalid_witness :
    Combined.compute_request SequenceKind.arithmetic (1 : ℚ) 2 0
        = Except.error Combined.SeqError.invalidTermCount ∧
    ∀ res : List ℚ × ℚ,
      Combined.compute_request SequenceKind.arithmetic (1 : ℚ) 2 0
        ≠ Except.ok res :=
  termCount_zero_invalid ℚ SequenceKind.arithmetic 1 2

/-- Claim C4: for positive termCount and step 1, every generated geometric
term equals firstTerm and the geometric sum is termCount * firstTerm,
computed by the dedicated step-equals-1 branch. -/
theorem geometric_ratio_one_correct (α : Type) [Field α] [DecidableEq α]
    (a : α) (tc : ℕ) (h : 0 < tc) :
    (∀ t ∈ Combined.generate_geometric_sequence a 1 tc, t = a) ∧
    Combined.calculate_geometric_sum a 1 tc = (tc : α) * a := by
  constructor
  · intro t ht
    rw [generate_geometric_eq_map] at ht
    simp only [List.mem_map, List.mem_range] at ht
    obtain ⟨i, _, rfl⟩ := ht
    simp
  · unfold Combined.calculate_geometric_sum
    rw [if_pos rfl]

/-- Concrete instance of claim C4: firstTerm 3, two terms. -/
theorem geometric_ratio_one_correct_witness :
    (∀ t ∈ Combined.generate_geometric_sequence (3 : ℚ) 1 2, t = 3) ∧
    Combined.calculate_geometric_sum (3 : ℚ) 1 2 = ((2 : ℕ) : ℚ) * 3 :=
  geometric_ratio_one_correct ℚ 3 2 (by decide)

/-- Claim C5: for positive termCount the arithmetic sum function returns
(termCount / 2) * (2 * firstTerm + (termCount - 1) * step), and in exact
field arithmetic this equals the fold of the list returned by the
arithmetic generator on the same arguments. -/
theorem arithmetic_computeSum_correct (α : Type) [Field α] [CharZero α]
    (a d : α) (tc : ℕ) (h : 0 < tc) :
    Combined.calculate_arithmetic_sum a d tc
        = ((tc : α) / 2) * (2 * a + ((tc : α) - 1) * d) ∧
    Combined.calculate_arithmetic_sum a d tc
        = (Combined.generate_arithmetic_sequence a d tc).sum :=
  ⟨rfl, (sum_generate_arithmetic a d tc).symm⟩

/-- Concrete instance of claim C5: firstTerm 1, step 2, ten terms. -/
theorem arithmetic_computeSum_correct_witness :
    Combined.calculate_arithmetic_sum (1 : ℚ) 2 10
        = (((10 : ℕ) : ℚ) / 2) * (2 * 1 + (((10 : ℕ) : ℚ) - 1) * 2) ∧
    Combined.calculate_arithmetic_sum (1 : ℚ) 2 10
        = (Combined.generate_arithmetic_sequence (1 : ℚ) 2 10).sum :=
  arithmetic_computeSum_correct ℚ 1 2 10 (by decide)

/-- Claim C6: for positive termCount and step 0, the geometric generator
returns firstTerm at position 1 (the exponent there is 0 and the power
convention gives 1) followed by zeros at every later position. -/
theorem geometric_ratio_zero_terms (α : Type) [Field α] (a : α) (tc : ℕ)
    (h : 0 < tc) :
    Combined.generate_geometric_sequence a 0 tc
      = a :: List.replicate (tc - 1) 0 := by
  obtain ⟨k, rfl⟩ : ∃ k, tc = k + 1 := ⟨tc - 1, (Nat.succ_pred_eq_of_pos h).symm⟩
  rw [generate_geometric_eq_map, List.range_succ_eq_map, List.map_cons,
    List.map_map]
  have hz : ((fun i : ℕ => a * (0 : α) ^ i) ∘ Nat.succ) = fun _ : ℕ => (0 : α) := by
    funext i
    simp [pow_succ]
  rw [hz, List.map_const']
  simp

/-- Concrete instance of claim C6: firstTerm 5, three terms. -/
theorem geometric_ratio_zero_terms_witness :
    Combined.generate_geometric_sequence (5 : ℚ) 0 3
      = 5 :: List.replicate (3 - 1) 0 :=
  geometric_ratio_zero_terms ℚ 5 3 (by decide)

/-- Claim C7: every term the geometric generator ever produces is
firstTerm * step ^ k for a natural-number exponent k below termCount, so an
exponentiation of a negative step by a non-integer exponent never occurs in
the engine: the condition under which the claim demands a DomainError is
unsatisfiable, and the engine never returns an undefined or non-real term. -/
theorem geometric_exponent_always_natural (α : Type) [Field α] (a r : α)
    (tc : ℕ) :
    ∀ t ∈ Combined.generate_geometric_sequence a r tc,
      ∃ k : ℕ, k < tc ∧ t = a * r ^ k := by
  intro t ht
  rw [generate_geometric_eq_map] at ht
  simp only [List.mem_map, List.mem_range] at ht
  obtain ⟨i, hi, rfl⟩ := ht
  exact ⟨i, hi, rfl⟩

/-- Concrete instance of claim C7: the head term of the sequence with
firstTerm 2, step 3, two terms. -/
theorem geometric_exponent_always_natural_witness :
    ∃ k : ℕ, k < 2 ∧ (2 * 3 ^ (0 : ℕ) : ℚ) = 2 * 3 ^ k :=
  geometric_exponent_always_natural ℚ 2 3 2 (2 * 3 ^ (0 : ℕ)) (List.Mem.head _)

/-- Claim C8: the engine is pure and deterministic: a second invocation with
identical arguments, made from the state left by a first invocation, returns
the same (terms, sum) pair as the first, and each operation applied twice to
the same arguments gives equal results. -/
theorem engine_no_state_drift (α : Type) [Field α] [DecidableEq α]
    (kind : SequenceKind) (a d : α) (tc : ℕ) :
    (Combined.engine_step (Combined.engine_step () kind a d tc).1
        kind a d tc).2
        = (Combined.engine_step () kind a d tc).2 ∧
    Combined.generateTerms kind a d tc = Combined.generateTerms kind a d tc ∧
    Combined.computeSum kind a d tc = Combined.computeSum kind a d tc :=
  ⟨rfl, rfl, rfl⟩

/-- Concrete instance of claim C8: geometric kind, firstTerm 1, step 2,
three terms. -/
theorem engine_no_state_drift_witness :
    (Combined.engine_step
        (Combined.engine_step () SequenceKind.geometric (1 : ℚ) 2 3).1
        SequenceKind.geometric (1 : ℚ) 2 3).2
        = (Combined.engine_step () SequenceKind.geometric (1 : ℚ) 2 3).2 ∧
    Combined.generateTerms SequenceKind.geometric (1 : ℚ) 2 3
        = Combined.generateTerms SequenceKind.geometric (1 : ℚ) 2 3 ∧
    Combined.computeSum SequenceKind.geometric (1 : ℚ) 2 3
        = Combined.computeSum SequenceKind.geometric (1 : ℚ) 2 3 :=
  engine_no_state_drift ℚ SequenceKind.geometric 1 2 3

/-- Claim C9: the arithmetic generator and arithmetic sum of the
arithmetic-only applet agree extensionally with those of the combined
applet on every input triple. -/
theorem variants_extensionally_equal (α : Type) [Field α] (a d : α)
    (tc : ℕ) :
    App.generate_arithmetic_sequence a d tc
        = Combined.generate_arithmetic_sequence a d tc ∧
    App.calculate_sum_formula a d tc = Combined.calculate_arithmetic_sum a d tc :=
  ⟨rfl, rfl⟩

/-- Concrete instance of claim C9: firstTerm 1, step 2, ten terms. -/
theorem variants_extensionally_equal_witness :
    App.generate_arithmetic_sequence (1 : ℚ) 2 10
        = Combined.generate_arithmetic_sequence (1 : ℚ) 2 10 ∧
    App.calculate_sum_formula (1 : ℚ) 2 10
        = Combined.calculate_arithmetic_sum (1 : ℚ) 2 10 :=
  variants_extensionally_equal ℚ 1 2 10

/-- Claim C10: the geometric sum function is total and never divides by
zero: when the step equals 1 the result comes from the multiplication
branch with no division, and when the step differs from 1 the denominator
1 - step of the division branch is nonzero and the division is exact. -/
theorem geometric_sum_no_division_by_zero (α : Type) [Field α]
    [DecidableEq α] (a r : α) (tc : ℕ) :
    (r = 1 → Combined.calculate_geometric_sum a r tc = (tc : α) * a) ∧
    (r ≠ 1 → 1 - r ≠ 0 ∧
      (1 - r) * Combined.calculate_geometric_sum a r tc = a * (1 - r ^ tc)) := by
  constructor
  · intro hr
    unfold Combined.calculate_geometric_sum
    rw [if_pos hr]
  · intro hr
    have hne : 1 - r ≠ 0 := sub_ne_zero.mpr (Ne.symm hr)
    refine ⟨hne, ?_⟩
    unfold Combined.calculate_geometric_sum
    rw [if_neg hr, mul_comm]
    exact div_mul_cancel₀ _ hne

/-- Concrete instance of claim C10: firstTerm 1, step 2, three terms. -/
theorem geometric_sum_no_division_by_zero_witness :
    ((2 : ℚ) = 1 →
      Combined.calculate_geometric_sum (1 : ℚ) 2 3 = ((3 : ℕ) : ℚ) * 1) ∧
    ((2 : ℚ) ≠ 1 → (1 : ℚ) - 2 ≠ 0 ∧
      ((1 : ℚ) - 2) * Combined.calculate_geometric_sum (1 : ℚ) 2 3
        = 1 * (1 - 2 ^ 3)) :=
  geometric_sum_no_division_by_zero ℚ 1 2 3

end SeqApplet
